import Mathlib

/-!
Shallow embedding of the AgentProtector gateway decision engine
(`gateway-api/app/policy_engine.py`, `routes_access.py`, `routes_manager.py`)
together with theorems checking the natural-language specification against it.

Conventions of the embedding:
* Python strings are Lean `String`s; `.strip()` / `.lower()` / `.upper()` are
  modelled on their ASCII fragment (`pyStrip`, `strLower`, `strUpper`) — every
  string the policy logic compares against is ASCII.
* The two regular expressions of `policy_engine.py` are modelled by direct
  recursive scanners with the same leftmost-match semantics.
* Database rows are Lean structures; `func.now()` is an abstract transaction
  timestamp `now : Nat`; SQLAlchemy sessions become an explicit `Store` value
  threaded through each route.
* The external Gemini call is modelled by an oracle value (`GeminiOutcome`),
  one constructor per way the response can come back; the `GEMINI_API_KEY` /
  `GEMINI_MODEL` environment is a `GeminiEnv` record.
-/

namespace AgentProtector

/-- The `Decision` literal type of `policy_engine.py`:
`Decision = Literal["ALLOW", "DENY", "NEEDS_APPROVAL"]`. -/
inductive Decision where
  | ALLOW
  | DENY
  | NEEDS_APPROVAL
deriving DecidableEq

/-- The string a `Decision` renders as inside Python f-strings. -/
def Decision.str : Decision → String
  | .ALLOW => "ALLOW"
  | .DENY => "DENY"
  | .NEEDS_APPROVAL => "NEEDS_APPROVAL"

/-- Strictness rank of a decision under the precedence order
`DENY` > `NEEDS_APPROVAL` > `ALLOW` (spec §4.4). -/
def Decision.strict : Decision → Nat
  | .ALLOW => 0
  | .NEEDS_APPROVAL => 1
  | .DENY => 2

/-- Python whitespace class (`str.strip` / regex `\s`), ASCII fragment. -/
def isPyWhitespace (c : Char) : Bool :=
  c = ' ' || c = '\t' || c = '\n' || c = '\r' || c = '\x0b' || c = '\x0c'

/-- ASCII fragment of Python `str.lower`, as an explicit letter table. -/
def pyLower (c : Char) : Char :=
  if c = 'A' then 'a' else if c = 'B' then 'b' else if c = 'C' then 'c'
  else if c = 'D' then 'd' else if c = 'E' then 'e' else if c = 'F' then 'f'
  else if c = 'G' then 'g' else if c = 'H' then 'h' else if c = 'I' then 'i'
  else if c = 'J' then 'j' else if c = 'K' then 'k' else if c = 'L' then 'l'
  else if c = 'M' then 'm' else if c = 'N' then 'n' else if c = 'O' then 'o'
  else if c = 'P' then 'p' else if c = 'Q' then 'q' else if c = 'R' then 'r'
  else if c = 'S' then 's' else if c = 'T' then 't' else if c = 'U' then 'u'
  else if c = 'V' then 'v' else if c = 'W' then 'w' else if c = 'X' then 'x'
  else if c = 'Y' then 'y' else if c = 'Z' then 'z' else c

/-- ASCII fragment of Python `str.upper`, as an explicit letter table. -/
def pyUpper (c : Char) : Char :=
  if c = 'a' then 'A' else if c = 'b' then 'B' else if c = 'c' then 'C'
  else if c = 'd' then 'D' else if c = 'e' then 'E' else if c = 'f' then 'F'
  else if c = 'g' then 'G' else if c = 'h' then 'H' else if c = 'i' then 'I'
  else if c = 'j' then 'J' else if c = 'k' then 'K' else if c = 'l' then 'L'
  else if c = 'm' then 'M' else if c = 'n' then 'N' else if c = 'o' then 'O'
  else if c = 'p' then 'P' else if c = 'q' then 'Q' else if c = 'r' then 'R'
  else if c = 's' then 'S' else if c = 't' then 'T' else if c = 'u' then 'U'
  else if c = 'v' then 'V' else if c = 'w' then 'W' else if c = 'x' then 'X'
  else if c = 'y' then 'Y' else if c = 'z' then 'Z' else c

/-- `str.strip()` on a character list: drop Python whitespace at both ends. -/
def pyStripList (l : List Char) : List Char :=
  ((l.dropWhile isPyWhitespace).reverse.dropWhile isPyWhitespace).reverse

/-- `str.strip()`. -/
def pyStrip (s : String) : String := ⟨pyStripList s.data⟩

/-- `str.lower()` (ASCII fragment). -/
def strLower (s : String) : String := ⟨s.data.map pyLower⟩

/-- `str.upper()` (ASCII fragment). -/
def strUpper (s : String) : String := ⟨s.data.map pyUpper⟩

/-- Python substring containment `w in s` on character lists. -/
def listContains (w : List Char) : List Char → Bool
  | [] => w.isEmpty
  | c :: cs => w.isPrefixOf (c :: cs) || listContains w cs

/-- Python substring containment `w in s` for strings. -/
def containsSub (s w : String) : Bool := listContains w.data s.data

/-- `_norm` of `policy_engine.py`: `(s or "").strip().lower()`. -/
def _norm (s : String) : String := strLower (pyStrip s)

/-- The delimiter class of `_split_types`' regex `[,\|/;\s]+`. -/
def isTypeDelim (c : Char) : Bool :=
  c = ',' || c = '|' || c = '/' || c = ';' || isPyWhitespace c

/-- Split a character list at every delimiter character, keeping empty
pieces (so that, combined with the non-empty filter below, the result is
exactly `re.split(r"[,\|/;\s]+", txt)` with empties removed). -/
def splitChars (p : Char → Bool) : List Char → List (List Char)
  | [] => [[]]
  | c :: cs =>
      let r := splitChars p cs
      if p c then [] :: r
      else
        match r with
        | [] => [[c]]
        | t :: ts => (c :: t) :: ts

/-- `_split_types`: normalize, split on `[,\|/;\s]+`, drop empty parts. -/
def _split_types (data_types : String) : List String :=
  let txt := _norm data_types
  if txt = "" then []
  else ((splitChars isTypeDelim txt.data).map (fun l => (⟨l⟩ : String))).filter
    (fun p => p != "")

/-- The local `bulk_words` list of `_scope_is_bulk`. -/
def bulk_words : List String :=
  ["all", "everyone", "entire", "export", "dump", "bulk", "full"]

/-- Python regex `\w` class (ASCII fragment), used for `\b` boundaries. -/
def isWordChar (c : Char) : Bool :=
  (c ≥ 'a' && c ≤ 'z') || (c ≥ 'A' && c ≤ 'Z') || (c ≥ '0' && c ≤ '9') || c = '_'

/-- `\b` after an alternative whose last character is a word character:
the next input character must not be a word character (or input ends). -/
def wordAltAt (w : String) (r : List Char) : Bool :=
  w.data.isPrefixOf r &&
    (match r.drop w.data.length with
     | [] => true
     | c :: _ => !(isWordChar c))

/-- `\*\b`: `*` is a non-word character, so the boundary requires the next
input character to be a word character (end of input is no boundary). -/
def starAltAt (r : List Char) : Bool :=
  match r with
  | '*' :: c :: _ => isWordChar c
  | _ => false

/-- One attempted match of `:\s*(all|\*|everything)\b` at the head. -/
def colonAllAt (l : List Char) : Bool :=
  match l with
  | ':' :: rest =>
      let r := rest.dropWhile isPyWhitespace
      wordAltAt "all" r || starAltAt r || wordAltAt "everything" r
  | _ => false

/-- `re.search(r":\s*(all|\*|everything)\b", s)`: try every start position. -/
def searchColonAll : List Char → Bool
  | [] => false
  | c :: rest => colonAllAt (c :: rest) || searchColonAll rest

/-- `_scope_is_bulk` of `policy_engine.py`. -/
def _scope_is_bulk (scope : String) : Bool :=
  let s := _norm scope
  bulk_words.any (fun w => containsSub s w) || searchColonAll s.data

/-- The character class `[a-z0-9\-_]` of `_scope_is_narrow`'s regex. -/
def isNarrowClassChar (c : Char) : Bool :=
  (c ≥ 'a' && c ≤ 'z') || (c ≥ '0' && c ≤ '9') || c = '-' || c = '_'

/-- One attempted match of `:\s*([a-z0-9\-_]{2,})` at the head; returns the
(greedy) captured group when the match succeeds. -/
def narrowGroupAt (l : List Char) : Option (List Char) :=
  match l with
  | ':' :: rest =>
      let r := rest.dropWhile isPyWhitespace
      let run := r.takeWhile isNarrowClassChar
      if run.length ≥ 2 then some run else none
  | _ => none

/-- `re.search(r":\s*([a-z0-9\-_]{2,})", s)`: leftmost match wins. -/
def searchNarrow : List Char → Option (List Char)
  | [] => none
  | c :: rest =>
      match narrowGroupAt (c :: rest) with
      | some g => some g
      | none => searchNarrow rest

/-- `_scope_is_narrow` of `policy_engine.py`. -/
def _scope_is_narrow (scope : String) : Bool :=
  let s := _norm scope
  match searchNarrow s.data with
  | none => false
  | some g =>
      let val : String := ⟨g⟩
      if val = "all" || val = "*" || val = "everything" then false else true

/-- `_clean_model_name` of `policy_engine.py`. -/
def _clean_model_name (model : String) : String :=
  let m := pyStrip model
  let m := if "models/".isPrefixOf m then m.drop 7 else m
  if m = "" then "gemini-3-flash-preview" else m

/-- The `PolicyResult` TypedDict. The three override fields of the
`total=False` dict are `Option`s (absent ≡ `none`). -/
structure PolicyResult where
  engine : String
  model : String
  decision : Decision
  risk_score : Int
  reason : String
  constraints : List String
  safe_alternative : String
  overridden : Option Bool := none
  override_from : Option Decision := none
  override_to : Option Decision := none
deriving DecidableEq

/-- The `sensitive_types` set of `hard_policy_decision` (lines 96-99). -/
def sensitive_types : List String :=
  ["pii", "financial", "secret", "secrets",
   "credential", "credentials", "password", "token", "key"]

/-- The inline sensitivity test of `hard_policy_decision` (line 100):
`any(t in sensitive_types for t in types)`. -/
def is_sensitive (data_types : String) : Bool :=
  (_split_types data_types).any (fun t => sensitive_types.contains t)

/-- `hard_policy_decision` of `policy_engine.py` (lines 87-158). -/
def hard_policy_decision (purpose requested_resource data_types scope : String) :
    Option PolicyResult :=
  let types := _split_types data_types
  let scope_n := _norm scope
  if _scope_is_bulk scope_n then
    if is_sensitive data_types then
      some { engine := "hard_rules", model := "", decision := .DENY, risk_score := 95,
             reason := "Hard rule: bulk access to sensitive data is prohibited.",
             constraints := ["Bulk export is not allowed",
                             "Narrow scope to one identifier (e.g., customer:123)"],
             safe_alternative :=
               "Request one specific record (e.g., customer:123) or use aggregated/anonymized data." }
    else
      some { engine := "hard_rules", model := "", decision := .DENY, risk_score := 85,
             reason := "Hard rule: bulk access is prohibited.",
             constraints := ["Bulk export is not allowed",
                             "Narrow scope to one identifier (e.g., ticket:123)"],
             safe_alternative :=
               "Narrow the scope to a specific entity instead of all records." }
  else if is_sensitive data_types && !(_scope_is_narrow scope_n) then
    some { engine := "hard_rules", model := "", decision := .NEEDS_APPROVAL, risk_score := 75,
           reason := "Hard rule: sensitive data requires manager approval unless scope is clearly narrow.",
           constraints := ["Scope must be narrowed to one identifier",
                           "Sensitive access must be audited"],
           safe_alternative :=
             "Use non-sensitive/aggregated data or narrow scope (e.g., customer:123)." }
  else if (types.contains "public" || !(is_sensitive data_types)) && _scope_is_narrow scope_n then
    if types.contains "public" then
      some { engine := "hard_rules", model := "", decision := .ALLOW, risk_score := 5,
             reason := "Hard rule: public data with narrow scope is allowed.",
             constraints := ["Access limited to " ++ pyStrip scope],
             safe_alternative := "" }
    else none
  else none

/-- `enforce_hard_rules` of `policy_engine.py` (lines 161-193). -/
def enforce_hard_rules (purpose requested_resource data_types scope : String)
    (policy : PolicyResult) : PolicyResult :=
  match hard_policy_decision purpose requested_resource data_types scope with
  | none => policy
  | some hard =>
      let hard_decision := hard.decision
      let gem_decision := policy.decision
      if (hard_decision = .DENY || hard_decision = .NEEDS_APPROVAL) && gem_decision = .ALLOW then
        { hard with overridden := some true, override_from := some .ALLOW,
                    override_to := some hard_decision,
                    reason := hard.reason ++ " (Overrode AI: ALLOW → " ++ hard_decision.str ++ ")" }
      else if hard_decision = .DENY && gem_decision = .NEEDS_APPROVAL then
        { hard with overridden := some true, override_from := some .NEEDS_APPROVAL,
                    override_to := some .DENY,
                    reason := hard.reason ++ " (Overrode AI: NEEDS_APPROVAL → DENY)" }
      else policy

/-- `_fallback_policy` of `policy_engine.py` (lines 200-217). -/
def _fallback_policy (purpose requested_resource data_types scope reason : String)
    (risk_score : Int) : PolicyResult :=
  let base : PolicyResult :=
    { engine := "fallback", model := "", decision := .NEEDS_APPROVAL, risk_score := risk_score,
      reason := reason,
      constraints := ["Manager approval required"],
      safe_alternative := "Narrow the scope (e.g., customer:123) or use aggregated data." }
  enforce_hard_rules purpose requested_resource data_types scope base

/-- The `GEMINI_API_KEY` / `GEMINI_MODEL` process environment. -/
structure GeminiEnv where
  api_key : Option String
  gemini_model : Option String
deriving DecidableEq

/-- The dict the Gemini structured-output call parses into
(`response.parsed` with the declared `response_schema`); each field is read
with `.get` and a default, hence `Option`. -/
structure ParsedPolicy where
  decision : Option Decision
  risk_score : Option Int
  reason : Option String
  constraints : Option (List String)
  safe_alternative : Option String
deriving DecidableEq

/-- Oracle for the external Gemini call inside `gemini_policy_decision`:
the response parsed into a dict, an unparsable response with its raw text,
or a raised exception identified by its type name. -/
inductive GeminiOutcome where
  | parsed (p : ParsedPolicy)
  | unparsed (text : String)
  | threw (exc_name : String)
deriving DecidableEq

/-- `gemini_policy_decision` of `policy_engine.py` (lines 224-308); the
network call is replaced by the `outcome` oracle. -/
def gemini_policy_decision (env : GeminiEnv) (outcome : GeminiOutcome)
    (purpose requested_resource data_types scope : String) : PolicyResult :=
  match hard_policy_decision purpose requested_resource data_types scope with
  | some hard => hard
  | none =>
      match env.api_key with
      | none =>
          _fallback_policy purpose requested_resource data_types scope
            "GEMINI_API_KEY missing; routed to manager approval." 60
      | some _ =>
          let model := _clean_model_name (env.gemini_model.getD "gemini-3-flash-preview")
          match outcome with
          | .parsed p =>
              let policy : PolicyResult :=
                { engine := "gemini", model := model,
                  decision := p.decision.getD .NEEDS_APPROVAL,
                  risk_score := (let r := p.risk_score.getD 70; if r = 0 then 70 else r),
                  reason := p.reason.getD "No reason provided",
                  constraints := p.constraints.getD ["Manager approval required"],
                  safe_alternative := p.safe_alternative.getD "",
                  overridden := some false }
              enforce_hard_rules purpose requested_resource data_types scope policy
          | .unparsed txt =>
              _fallback_policy purpose requested_resource data_types scope
                ("Model output not parsed; routed to manager approval. Raw: " ++ txt.take 120) 70
          | .threw exc_name =>
              _fallback_policy purpose requested_resource data_types scope
                ("Policy model unavailable; routed to manager approval. (" ++ exc_name ++ ")") 65

/-- The manager-assist note that `gateway_decide_from_prompt` folds into
`policy_json["gemini"]` (dict literal at lines 498-505). -/
structure GeminiNote where
  enabled : Bool
  recommendation : Option String
  confidence : Option Int
  key_points : List String
  model : String
  error : String
deriving DecidableEq

/-- Oracle for the optional `gemini_manager_recommendation` call inside
`gateway_decide_from_prompt`: either the returned dict (already projected to
the fields the caller reads) or the raised exception's string. -/
inductive AssistOutcome where
  | note (n : GeminiNote)
  | failed (err : String)
deriving DecidableEq

/-- The `policy_json` dict built by `gateway_decide_from_prompt`. -/
structure GatewayPolicyJson where
  engine : String
  reason : String
  constraints : List String
  gemini : Option GeminiNote := none
  gemini_error : Option String := none
  model : Option String := none
deriving DecidableEq

/-- The JSON column `AccessRequest.policy_json`: either a full `PolicyResult`
(access route) or the hand-built gateway dict (demo-agent route). -/
inductive PolicyJson where
  | fromResult (r : PolicyResult)
  | fromGateway (g : GatewayPolicyJson)
deriving DecidableEq

/-- The `access_requests` row (`models.py`). `created_at` / `decided_at` are
abstract timestamps; `decided_at` is the nullable column with no default. -/
structure AccessRequest where
  id : String
  org_id : String
  agent_id : Option String
  purpose : String
  requested_resource : String
  data_types : String
  scope : String
  ttl_minutes : Int
  decision : Decision
  decision_reason : Option String
  risk_score : Option Int
  policy_json : Option PolicyJson
  created_at : Nat
  decided_at : Option Nat
deriving DecidableEq

/-- An `audit_logs` row (`models.py`); the DB-generated id and timestamp are
omitted, the store keeps entries in append order. -/
structure AuditLog where
  org_id : String
  event_type : String
  message : String
deriving DecidableEq

/-- A FastAPI `HTTPException`. -/
structure HTTPException where
  status_code : Nat
  detail : String
deriving DecidableEq

/-- The relevant slice of the database session: the `access_requests` and
`audit_logs` tables, in insertion order. -/
structure Store where
  requests : List AccessRequest
  audit_logs : List AuditLog
deriving DecidableEq

/-- Committing a mutated ORM row: replace the row with the same id. -/
def updateReq (reqs : List AccessRequest) (ar : AccessRequest) : List AccessRequest :=
  reqs.map (fun r => if r.id = ar.id then ar else r)

/-- `db.query(AccessRequest).filter(AccessRequest.id == request_id).first()`. -/
def findReq (reqs : List AccessRequest) (request_id : String) : Option AccessRequest :=
  reqs.find? (fun r => r.id == request_id)

/-- The `AccessRequestCreate` schema (`schemas.py`); pydantic has already
trimmed each string field and checked the bounds, and the model has no
`org_id` field, so the route's `getattr(payload, "org_id", None)`
backward-compatibility check never fires and is omitted. -/
structure AccessRequestCreate where
  purpose : String
  requested_resource : String
  data_types : String
  scope : String
  ttl_minutes : Int
deriving DecidableEq

/-- `create_access_request` of `routes_access.py` (lines 27-84).
`orgs` is the `organizations` table (ids), `agent_org_id` / `agent_id` come
from the authenticated agent, `new_id` is the fresh row id and `now` the
transaction timestamp `func.now()`. -/
def create_access_request (env : GeminiEnv) (outcome : GeminiOutcome)
    (orgs : List String) (agent_org_id agent_id : String)
    (payload : AccessRequestCreate) (db : Store) (new_id : String) (now : Nat) :
    Except HTTPException AccessRequest × Store :=
  if !(orgs.contains agent_org_id) then
    (.error ⟨404, "org not found"⟩, db)
  else
    let policy := gemini_policy_decision env outcome
      payload.purpose payload.requested_resource payload.data_types payload.scope
    let decision := policy.decision
    let reason := policy.reason
    let risk_score := policy.risk_score
    let ar : AccessRequest :=
      { id := new_id, org_id := agent_org_id, agent_id := some agent_id,
        purpose := pyStrip payload.purpose,
        requested_resource := pyStrip payload.requested_resource,
        data_types := pyStrip payload.data_types,
        scope := pyStrip payload.scope,
        ttl_minutes := payload.ttl_minutes,
        decision := decision,
        decision_reason := some reason,
        risk_score := some risk_score,
        policy_json := some (.fromResult policy),
        created_at := now,
        decided_at := if decision = .ALLOW || decision = .DENY then some now else none }
    (.ok ar,
     { requests := db.requests ++ [ar],
       audit_logs := db.audit_logs ++
         [⟨agent_org_id, "ACCESS_REQUESTED",
           "agent=" ++ agent_id ++ " decision=" ++ decision.str ++
           " risk=" ++ toString risk_score ++ " engine=" ++ policy.engine ++
           " model=" ++ policy.model ++ " reason=" ++ reason⟩] })

/-- The `DecisionCreate` schema after pydantic validation: `decision` is the
literal `"ALLOW"` or `"DENY"`, `reason` is trimmed and blank collapses to
`None`. -/
structure DecisionCreate where
  decision : String
  reason : Option String
deriving DecidableEq

/-- Pydantic boundary validation of a `DecisionCreate` body: the
`Literal["ALLOW", "DENY"]` field rejects any other value with a 422 before
the route handler runs; the `reason` validator trims and maps blank to
`None`. -/
def parseDecisionCreate (decision : String) (reason : Option String) :
    Option DecisionCreate :=
  if decision = "ALLOW" || decision = "DENY" then
    some ⟨decision,
      match reason with
      | none => none
      | some r => (let t := pyStrip r; if t = "" then none else some t)⟩
  else none

/-- The decision reason a validated `DecisionCreate` produces: the given
(already trimmed, non-blank) reason, or "Approved"/"Denied" when absent. -/
def decisionReasonOf (pd : DecisionCreate) : String :=
  match pd.reason with
  | some t => t
  | none => if pd.decision = "ALLOW" then "Approved" else "Denied"

/-- `decide_access_request` of `routes_access.py` (lines 95-118), including
the pydantic boundary validation of the request body. -/
def decide_access_request (db : Store) (request_id : String)
    (raw_decision : String) (raw_reason : Option String) (now : Nat) :
    Except HTTPException AccessRequest × Store :=
  match parseDecisionCreate raw_decision raw_reason with
  | none => (.error ⟨422, "Input should be 'ALLOW' or 'DENY'"⟩, db)
  | some payload =>
      match findReq db.requests request_id with
      | none => (.error ⟨404, "request not found"⟩, db)
      | some ar =>
          if ar.decision ≠ .NEEDS_APPROVAL then
            (.error ⟨409, "Request already decided as " ++ ar.decision.str⟩, db)
          else
            let decision := strUpper (pyStrip payload.decision)
            if !(decision = "ALLOW" || decision = "DENY") then
              (.error ⟨400, "decision must be ALLOW or DENY"⟩, db)
            else
              let reason₀ := (match payload.reason with
                              | none => ""
                              | some r => pyStrip r)
              let reason := if reason₀ = "" then
                              (if decision = "ALLOW" then "Approved" else "Denied")
                            else reason₀
              let dec : Decision := if decision = "ALLOW" then .ALLOW else .DENY
              let ar' := { ar with decision := dec, decision_reason := some reason,
                                   decided_at := some now }
              (.ok ar',
               { requests := updateReq db.requests ar',
                 audit_logs := db.audit_logs ++
                   [⟨ar.org_id, "DECISION_MADE",
                     "Manager decision=" ++ decision ++ " request=" ++ request_id ++
                     " reason=" ++ reason⟩] })

/-- `manager_decide` of `routes_manager.py` (lines 236-279). The form fields
arrive as raw strings; the handler normalizes and validates them itself.
The HTTP handler answers with a redirect; the embedding returns the updated
row so its effect can be stated. -/
def manager_decide (orgs : List String) (db : Store)
    (org_id request_id raw_decision raw_reason : String) (now : Nat) :
    Except HTTPException AccessRequest × Store :=
  if !(orgs.contains org_id) then
    (.error ⟨404, "org_id not found"⟩, db)
  else
    let decision := strUpper (pyStrip raw_decision)
    if !(decision = "ALLOW" || decision = "DENY") then
      (.error ⟨400, "decision must be ALLOW or DENY"⟩, db)
    else
      match findReq db.requests request_id with
      | none => (.error ⟨404, "request not found"⟩, db)
      | some ar =>
          if ar.org_id ≠ org_id then
            (.error ⟨403, "request does not belong to this org"⟩, db)
          else if ar.decision ≠ .NEEDS_APPROVAL then
            (.error ⟨409, "Already decided: " ++ ar.decision.str⟩, db)
          else
            let final_reason :=
              (let t := pyStrip raw_reason
               if t = "" then (if decision = "ALLOW" then "Approved" else "Denied") else t)
            let dec : Decision := if decision = "ALLOW" then .ALLOW else .DENY
            let ar' := { ar with decision := dec, decision_reason := some final_reason,
                                 decided_at := some now }
            (.ok ar',
             { requests := updateReq db.requests ar',
               audit_logs := db.audit_logs ++
                 [⟨org_id, "DECISION_MADE",
                   "Manager decision=" ++ decision ++ " request=" ++ request_id ++
                   " reason=" ++ final_reason⟩] })

/-- The strict intent schema returned by `_simple_intent_parse`. -/
structure Intent where
  purpose : String
  requested_resource : String
  data_types : String
  scope : String
  suspicious : Bool
deriving DecidableEq

/-- `_simple_intent_parse` of `policy_engine.py` (lines 426-460). -/
def _simple_intent_parse (prompt : String) : Intent :=
  let p := strLower prompt
  let tool := "orders_table"
  let data_types := "public"
  let scope := "ticket:123"
  let purpose := prompt.take 120
  let (tool, data_types, scope) :=
    if containsSub p "customer" then ("customers_table", "pii", "customer:123")
    else (tool, data_types, scope)
  let (tool, data_types, scope) :=
    if containsSub p "export" || containsSub p "all customers" || containsSub p "dump" then
      ("customers_table", "pii", "all")
    else (tool, data_types, scope)
  let suspicious :=
    ["ignore policy", "bypass", "override", "system prompt",
     "admin", "sudo", "dump", "exfiltrate"].any (fun x => containsSub p x)
  { purpose := purpose, requested_resource := tool, data_types := data_types,
    scope := scope, suspicious := suspicious }

/-- `gateway_decide_from_prompt` of `policy_engine.py` (lines 463-529).
Oracles as elsewhere; note the `AccessRequest` constructor of the source
passes no `decided_at`, so the nullable column stays NULL.  The source adds
no audit row on this path. -/
def gateway_decide_from_prompt (env : GeminiEnv) (assist : AssistOutcome)
    (db : Store) (org_id prompt new_id : String) (now : Nat) :
    AccessRequest × Store :=
  let intent := _simple_intent_parse prompt
  let risk : Int := 10
  let decision : Decision := .ALLOW
  let decision_reason := "Auto-approved: low risk"
  let policy_json : GatewayPolicyJson :=
    { engine := "hard_rules", reason := "low risk", constraints := [] }
  let (risk, decision, decision_reason, policy_json) :=
    if intent.data_types = "pii" then
      (60, Decision.NEEDS_APPROVAL, "PII access requires manager approval",
       { policy_json with reason := "PII requires approval",
                          constraints := ["Limit scope to customer:ID", "No bulk export"] })
    else (risk, decision, decision_reason, policy_json)
  let (risk, decision, decision_reason, policy_json) :=
    if intent.suspicious then
      (max risk 85, Decision.NEEDS_APPROVAL, "Suspicious / prompt-injection patterns detected",
       { policy_json with reason := "Possible prompt injection / policy bypass attempt",
                          constraints := ["Deny bulk access", "Require explicit scope",
                                          "Log and review"] })
    else (risk, decision, decision_reason, policy_json)
  let policy_json :=
    match env.api_key with
    | none => policy_json
    | some _ =>
        match assist with
        | .note n =>
            { policy_json with gemini := some n, engine := "hard_rules+gemini",
                               model := some n.model }
        | .failed e => { policy_json with gemini_error := some e }
  let ar : AccessRequest :=
    { id := new_id, org_id := org_id, agent_id := some "demo_agent",
      purpose := intent.purpose,
      requested_resource := intent.requested_resource,
      data_types := intent.data_types,
      scope := intent.scope,
      ttl_minutes := 30,
      decision := decision,
      decision_reason := some decision_reason,
      risk_score := some risk,
      policy_json := some (.fromGateway policy_json),
      created_at := now,
      decided_at := none }
  (ar, { requests := db.requests ++ [ar], audit_logs := db.audit_logs })

/-- The grant descriptor returned by `issue_grant_if_approved`. -/
structure Grant where
  tool : String
  scope : String
  result_preview : String
deriving DecidableEq

/-- `issue_grant_if_approved` of `policy_engine.py` (lines 532-543); the
session is passed through untouched, as in the source (no write, no commit). -/
def issue_grant_if_approved (db : Store) (ar : AccessRequest) :
    Except HTTPException Grant × Store :=
  if ar.decision ≠ .ALLOW then
    (.error ⟨403, "Not approved yet. Approve in Manager Console first."⟩, db)
  else
    (.ok { tool := ar.requested_resource, scope := ar.scope,
           result_preview := "✅ Tool executed successfully for scope=" ++ ar.scope ++
                             ". (demo output)" },
     db)

/-- The sensitive vocabulary exactly as the specification lists it
(spec §4.1); kept separate from the source's `sensitive_types` so the two
can be compared. -/
def spec_sensitive_vocab : List String :=
  ["pii", "financial", "medical", "secret", "secrets",
   "credential", "credentials", "password", "token", "key"]

/-- Modelled from the spec: the ordered decision table of §4.2 / claim C4,
first matching rule wins, projected to (decision, risk); compared with the
source's `hard_policy_decision`. -/
def spec_rule_fire (data_types scope : String) : Option (Decision × Int) :=
  let types := _split_types data_types
  if _scope_is_bulk (_norm scope) && is_sensitive data_types then some (.DENY, 95)
  else if _scope_is_bulk (_norm scope) then some (.DENY, 85)
  else if is_sensitive data_types && !(_scope_is_narrow (_norm scope)) then
    some (.NEEDS_APPROVAL, 75)
  else if types.contains "public" && _scope_is_narrow (_norm scope) then some (.ALLOW, 5)
  else none

/-! ## Auxiliary lemmas -/

/-- `pyLower` never produces an uppercase letter and never touches
whitespace: it is idempotent and commutes with the whitespace test. -/
theorem pyLower_spec (c : Char) :
    pyLower (pyLower c) = pyLower c ∧ isPyWhitespace (pyLower c) = isPyWhitespace c := by
  by_cases hA : c = 'A'; · subst hA; exact ⟨rfl, rfl⟩
  by_cases hB : c = 'B'; · subst hB; exact ⟨rfl, rfl⟩
  by_cases hC : c = 'C'; · subst hC; exact ⟨rfl, rfl⟩
  by_cases hD : c = 'D'; · subst hD; exact ⟨rfl, rfl⟩
  by_cases hE : c = 'E'; · subst hE; exact ⟨rfl, rfl⟩
  by_cases hF : c = 'F'; · subst hF; exact ⟨rfl, rfl⟩
  by_cases hG : c = 'G'; · subst hG; exact ⟨rfl, rfl⟩
  by_cases hH : c = 'H'; · subst hH; exact ⟨rfl, rfl⟩
  by_cases hI : c = 'I'; · subst hI; exact ⟨rfl, rfl⟩
  by_cases hJ : c = 'J'; · subst hJ; exact ⟨rfl, rfl⟩
  by_cases hK : c = 'K'; · subst hK; exact ⟨rfl, rfl⟩
  by_cases hL : c = 'L'; · subst hL; exact ⟨rfl, rfl⟩
  by_cases hM : c = 'M'; · subst hM; exact ⟨rfl, rfl⟩
  by_cases hN : c = 'N'; · subst hN; exact ⟨rfl, rfl⟩
  by_cases hO : c = 'O'; · subst hO; exact ⟨rfl, rfl⟩
  by_cases hP : c = 'P'; · subst hP; exact ⟨rfl, rfl⟩
  by_cases hQ : c = 'Q'; · subst hQ; exact ⟨rfl, rfl⟩
  by_cases hR : c = 'R'; · subst hR; exact ⟨rfl, rfl⟩
  by_cases hS : c = 'S'; · subst hS; exact ⟨rfl, rfl⟩
  by_cases hT : c = 'T'; · subst hT; exact ⟨rfl, rfl⟩
  by_cases hU : c = 'U'; · subst hU; exact ⟨rfl, rfl⟩
  by_cases hV : c = 'V'; · subst hV; exact ⟨rfl, rfl⟩
  by_cases hW : c = 'W'; · subst hW; exact ⟨rfl, rfl⟩
  by_cases hX : c = 'X'; · subst hX; exact ⟨rfl, rfl⟩
  by_cases hY : c = 'Y'; · subst hY; exact ⟨rfl, rfl⟩
  by_cases hZ : c = 'Z'; · subst hZ; exact ⟨rfl, rfl⟩
  have h : pyLower c = c := by
    simp [pyLower, hA, hB, hC, hD, hE, hF, hG, hH, hI, hJ, hK, hL, hM,
          hN, hO, hP, hQ, hR, hS, hT, hU, hV, hW, hX, hY, hZ]
  rw [h]; exact ⟨h, rfl⟩

/-- `dropWhile` of the whitespace test commutes with `map pyLower`. -/
theorem dropWhile_ws_map_pyLower (l : List Char) :
    (l.map pyLower).dropWhile isPyWhitespace =
      (l.dropWhile isPyWhitespace).map pyLower := by
  induction l with
  | nil => rfl
  | cons c cs ih =>
      simp only [List.map_cons, List.dropWhile_cons, (pyLower_spec c).2]
      by_cases h : isPyWhitespace c = true
      · simp [h, ih]
      · simp [h]

/-- `dropWhile` is idempotent. -/
theorem dropWhile_dropWhile (p : Char → Bool) (l : List Char) :
    (l.dropWhile p).dropWhile p = l.dropWhile p := by
  induction l with
  | nil => rfl
  | cons c cs ih =>
      by_cases h : p c = true
      · simp [List.dropWhile_cons, h, ih]
      · simp [List.dropWhile_cons, h]

/-- The head of `dropWhile p l` fails `p`. -/
theorem dropWhile_head_false (p : Char → Bool) :
    ∀ (l : List Char) (c : Char) (t : List Char),
      l.dropWhile p = c :: t → p c = false := by
  intro l
  induction l with
  | nil => intro c t h; simp [List.dropWhile] at h
  | cons a as ih =>
      intro c t h
      rw [List.dropWhile_cons] at h
      by_cases ha : p a = true
      · rw [if_pos ha] at h; exact ih c t h
      · rw [if_neg ha] at h
        cases h
        simpa using ha

/-- A list whose head fails `p` is fixed by `dropWhile p`. -/
theorem dropWhile_eq_self_of_head (p : Char → Bool) (l : List Char)
    (h : ∀ c t, l = c :: t → p c = false) : l.dropWhile p = l := by
  cases l with
  | nil => rfl
  | cons c t => rw [List.dropWhile_cons, h c t rfl]; simp

/-- A nonempty prefix starts with the same head. -/
theorem head_of_isPrefix {l₁ l₂ : List Char} (h : l₁ <+: l₂) :
    ∀ c t, l₁ = c :: t → ∃ t', l₂ = c :: t' := by
  intro c t hc
  rcases h with ⟨u, hu⟩
  subst hc
  exact ⟨t ++ u, by simpa using hu.symm⟩

/-- `pyStripList` output never starts with whitespace. -/
theorem pyStripList_head_false (l : List Char) :
    ∀ c t, pyStripList l = c :: t → isPyWhitespace c = false := by
  intro c t h
  have hsuf : ((l.dropWhile isPyWhitespace).reverse.dropWhile isPyWhitespace)
      <:+ (l.dropWhile isPyWhitespace).reverse := List.dropWhile_suffix _
  have hpre : pyStripList l <+: l.dropWhile isPyWhitespace := by
    unfold pyStripList
    have := List.reverse_prefix.mpr hsuf
    simpa using this
  rcases head_of_isPrefix hpre c t h with ⟨t', ht'⟩
  exact dropWhile_head_false isPyWhitespace l c t' ht'

/-- `pyStripList` is idempotent. -/
theorem pyStripList_idem (l : List Char) :
    pyStripList (pyStripList l) = pyStripList l := by
  have h₁ : (pyStripList l).dropWhile isPyWhitespace = pyStripList l :=
    dropWhile_eq_self_of_head _ _ (pyStripList_head_false l)
  have h₂ : (pyStripList l).reverse.dropWhile isPyWhitespace = (pyStripList l).reverse := by
    unfold pyStripList
    simpa using dropWhile_dropWhile isPyWhitespace
      ((l.dropWhile isPyWhitespace).reverse)
  show ((((pyStripList l).dropWhile isPyWhitespace).reverse).dropWhile
        isPyWhitespace).reverse = pyStripList l
  rw [h₁, h₂, List.reverse_reverse]

/-- `pyStripList` commutes with `map pyLower`. -/
theorem pyStripList_map_pyLower (l : List Char) :
    pyStripList (l.map pyLower) = (pyStripList l).map pyLower := by
  unfold pyStripList
  rw [dropWhile_ws_map_pyLower, ← List.map_reverse, dropWhile_ws_map_pyLower,
    ← List.map_reverse]

/-- `_norm` is idempotent. -/
theorem norm_norm (s : String) : _norm (_norm s) = _norm s := by
  show (⟨(pyStripList ((pyStripList s.data).map pyLower)).map pyLower⟩ : String) =
    ⟨(pyStripList s.data).map pyLower⟩
  rw [pyStripList_map_pyLower, pyStripList_idem, List.map_map]
  have h : pyLower ∘ pyLower = pyLower := funext fun c => (pyLower_spec c).1
  rw [h]

/-- Normalizing the scope before the bulk test changes nothing (the test
normalizes again internally). -/
theorem scope_is_bulk_norm (scope : String) :
    _scope_is_bulk (_norm scope) = _scope_is_bulk scope := by
  unfold _scope_is_bulk
  rw [norm_norm]

/-- `pyStrip` is idempotent. -/
theorem pyStrip_idem (s : String) : pyStrip (pyStrip s) = pyStrip s := by
  show (⟨pyStripList (pyStripList s.data)⟩ : String) = ⟨pyStripList s.data⟩
  rw [pyStripList_idem]

/-- Every verdict `hard_policy_decision` produces carries engine
`hard_rules`. -/
theorem hard_engine (p r d s : String) (v : PolicyResult)
    (h : hard_policy_decision p r d s = some v) : v.engine = "hard_rules" := by
  unfold hard_policy_decision at h
  by_cases hb : _scope_is_bulk (_norm s) = true <;>
  by_cases hs : is_sensitive d = true <;>
  by_cases hn : _scope_is_narrow (_norm s) = true <;>
  by_cases hp : (_split_types d).contains "public" = true <;>
  simp only [hb, hs, hn, hp, Bool.true_and, Bool.false_and, Bool.and_true,
    Bool.and_false, Bool.true_or, Bool.false_or, Bool.or_true, Bool.or_false,
    Bool.not_true, Bool.not_false, if_true, if_false, reduceCtorEq,
    Option.some.injEq, reduceIte] at h <;>
  exact h ▸ rfl

/-- With no hard verdict, `enforce_hard_rules` passes the candidate
through. -/
theorem enforce_of_none (p r d s : String) (policy : PolicyResult)
    (h : hard_policy_decision p r d s = none) :
    enforce_hard_rules p r d s policy = policy := by
  unfold enforce_hard_rules
  rw [h]

/-- With no hard verdict, `_fallback_policy` is the plain fallback record. -/
theorem fallback_of_none (p r d s reason : String) (rs : Int)
    (h : hard_policy_decision p r d s = none) :
    _fallback_policy p r d s reason rs =
      { engine := "fallback", model := "", decision := .NEEDS_APPROVAL,
        risk_score := rs, reason := reason,
        constraints := ["Manager approval required"],
        safe_alternative := "Narrow the scope (e.g., customer:123) or use aggregated data." } := by
  unfold _fallback_policy
  exact enforce_of_none p r d s _ h

/-- Inversion of the pydantic validation: a body that passes carries the
literal `"ALLOW"`/`"DENY"` and an already-trimmed, non-blank reason. -/
theorem parseDecisionCreate_inv (rd : String) (rr : Option String)
    (pd : DecisionCreate) (h : parseDecisionCreate rd rr = some pd) :
    pd.decision = rd ∧ (pd.decision = "ALLOW" ∨ pd.decision = "DENY") ∧
    (∀ t, pd.reason = some t → pyStrip t = t ∧ t ≠ "") := by
  unfold parseDecisionCreate at h
  by_cases hd : (decide (rd = "ALLOW") || decide (rd = "DENY")) = true
  · rw [if_pos hd] at h
    injection h with h'
    subst h'
    refine ⟨rfl, by simpa using hd, fun t ht => ?_⟩
    rcases rr with - | r
    · exact Option.noConfusion ht
    · dsimp only [] at ht
      by_cases hs : pyStrip r = ""
      · rw [if_pos hs] at ht
        exact Option.noConfusion ht
      · rw [if_neg hs] at ht
        injection ht with ht'
        subst ht'
        exact ⟨pyStrip_idem r, hs⟩
  · rw [if_neg hd] at h
    exact Option.noConfusion h

/-! ## Claim theorems -/

/-- C4: for every input, the Deterministic Rule Evaluator returns the
verdict of the first matching rule of the ordered table and nothing else:
bulk ∧ sensitive → DENY 95; bulk ∧ ¬sensitive → DENY 85; sensitive ∧
¬narrow → NEEDS_APPROVAL 75; `public` tag ∧ narrow → ALLOW 5; otherwise it
abstains.  Stated as: the source's `hard_policy_decision`, projected to
(decision, risk), coincides with the spec's decision table everywhere. -/
theorem C4_rule_table (p r d s : String) :
    (hard_policy_decision p r d s).map (fun v => (v.decision, v.risk_score)) =
      spec_rule_fire d s := by
  unfold hard_policy_decision spec_rule_fire
  by_cases hb : _scope_is_bulk (_norm s) = true <;>
  by_cases hs : is_sensitive d = true <;>
  by_cases hn : _scope_is_narrow (_norm s) = true <;>
  by_cases hp : "public" ∈ _split_types d <;>
  simp [hb, hs, hn, hp]

/-- C5: the Reconciler (`enforce_hard_rules`) returns the hard-rule verdict
annotated `overridden=true` / `override_from=<candidate>` /
`override_to=<hard>` with an override note appended to the reason exactly
when the hard verdict exists and is strictly stricter than the candidate
under `DENY > NEEDS_APPROVAL > ALLOW`; in every other case the candidate
stands unmodified; hence the result is never strictly less strict than the
stricter input. -/
theorem C5_reconciler (p r d s : String) (policy : PolicyResult) :
    (hard_policy_decision p r d s = none →
      enforce_hard_rules p r d s policy = policy) ∧
    (∀ hard, hard_policy_decision p r d s = some hard →
      (policy.decision.strict < hard.decision.strict →
        enforce_hard_rules p r d s policy =
          { hard with overridden := some true,
                      override_from := some policy.decision,
                      override_to := some hard.decision,
                      reason := hard.reason ++ " (Overrode AI: " ++ policy.decision.str ++
                                " → " ++ hard.decision.str ++ ")" }) ∧
      (¬ policy.decision.strict < hard.decision.strict →
        enforce_hard_rules p r d s policy = policy) ∧
      max hard.decision.strict policy.decision.strict ≤
        (enforce_hard_rules p r d s policy).decision.strict) := by
  constructor
  · intro h
    exact enforce_of_none p r d s policy h
  · intro hard h
    unfold enforce_hard_rules
    rw [h]
    rcases hhd : hard.decision <;> rcases hpd : policy.decision <;>
      refine ⟨fun hlt => ?_, fun hge => ?_, ?_⟩ <;>
      simp_all [Decision.strict, Decision.str, String.append_assoc]

/-- Witness for C5: at `data_types="pii"`, `scope="all"` the hard verdict is
the DENY-95 record; against an advisory ALLOW candidate the reconciler
returns the annotated hard verdict. -/
theorem C5_reconciler_witness :
    enforce_hard_rules "marketing" "customers_table" "pii" "all"
      { engine := "gemini", model := "m", decision := .ALLOW, risk_score := 20,
        reason := "Looks fine", constraints := [], safe_alternative := "",
        overridden := some false } =
      { engine := "hard_rules", model := "", decision := .DENY, risk_score := 95,
        reason := "Hard rule: bulk access to sensitive data is prohibited." ++
          " (Overrode AI: ALLOW → DENY)",
        constraints := ["Bulk export is not allowed",
                        "Narrow scope to one identifier (e.g., customer:123)"],
        safe_alternative :=
          "Request one specific record (e.g., customer:123) or use aggregated/anonymized data.",
        overridden := some true, override_from := some .ALLOW,
        override_to := some .DENY } := by
  have h := (C5_reconciler "marketing" "customers_table" "pii" "all"
    { engine := "gemini", model := "m", decision := .ALLOW, risk_score := 20,
      reason := "Looks fine", constraints := [], safe_alternative := "",
      overridden := some false }).2
    { engine := "hard_rules", model := "", decision := .DENY, risk_score := 95,
      reason := "Hard rule: bulk access to sensitive data is prohibited.",
      constraints := ["Bulk export is not allowed",
                      "Narrow scope to one identifier (e.g., customer:123)"],
      safe_alternative :=
        "Request one specific record (e.g., customer:123) or use aggregated/anonymized data." }
    rfl
  rw [(h.1 (by decide))]
  rfl

/-- C3 fails on the code: the sensitive vocabulary of
`hard_policy_decision` has no `medical` entry, so a request tagged
`medical` is not classified sensitive and the Rule Evaluator abstains on it
instead of requiring approval. -/
theorem C3_counterexample :
    "medical" ∈ spec_sensitive_vocab ∧
    "medical" ∈ _split_types "medical" ∧
    is_sensitive "medical" = false ∧
    hard_policy_decision "support" "patients_table" "medical" "" = none := by
  refine ⟨by decide, by decide, rfl, rfl⟩

/-- C3 (amended): `is_sensitive` is true exactly when the normalized tag
set intersects the fixed vocabulary {pii, financial, secret, secrets,
credential, credentials, password, token, key} — `medical` is not in the
vocabulary, and a `medical`-tagged request is not classified sensitive. -/
theorem C3_sensitive_vocab :
    (∀ dt : String,
        is_sensitive dt = true ↔ ∃ t ∈ _split_types dt, t ∈ sensitive_types) ∧
    "medical" ∉ sensitive_types ∧
    is_sensitive "medical" = false := by
  refine ⟨fun dt => ?_, by decide, rfl⟩
  unfold is_sensitive
  rw [List.any_eq_true]
  constructor
  · rintro ⟨t, ht, hc⟩
    exact ⟨t, ht, by simpa using hc⟩
  · rintro ⟨t, ht, hc⟩
    exact ⟨t, ht, by simpa using hc⟩

/-- C6: when the Rule Evaluator abstains and the advisory layer cannot
produce a usable verdict, the pipeline returns (never raises) a fallback
verdict: decision NEEDS_APPROVAL, the manager-approval constraint and the
safe-alternative suggestion, with risk 60 when the credential is missing
(reason naming the missing configuration), 70 when the response is
unparsable (reason with a 120-character excerpt of the raw text), and 65
when the call throws (reason naming the exception type). -/
theorem C6_fallback (p r d s : String) (env : GeminiEnv) (outcome : GeminiOutcome)
    (h : hard_policy_decision p r d s = none) :
    (env.api_key = none →
      gemini_policy_decision env outcome p r d s =
        { engine := "fallback", model := "", decision := .NEEDS_APPROVAL,
          risk_score := 60,
          reason := "GEMINI_API_KEY missing; routed to manager approval.",
          constraints := ["Manager approval required"],
          safe_alternative := "Narrow the scope (e.g., customer:123) or use aggregated data." }) ∧
    (∀ k txt, env.api_key = some k → outcome = .unparsed txt →
      gemini_policy_decision env outcome p r d s =
        { engine := "fallback", model := "", decision := .NEEDS_APPROVAL,
          risk_score := 70,
          reason := "Model output not parsed; routed to manager approval. Raw: " ++
            txt.take 120,
          constraints := ["Manager approval required"],
          safe_alternative := "Narrow the scope (e.g., customer:123) or use aggregated data." }) ∧
    (∀ k exc, env.api_key = some k → outcome = .threw exc →
      gemini_policy_decision env outcome p r d s =
        { engine := "fallback", model := "", decision := .NEEDS_APPROVAL,
          risk_score := 65,
          reason := "Policy model unavailable; routed to manager approval. (" ++ exc ++ ")",
          constraints := ["Manager approval required"],
          safe_alternative := "Narrow the scope (e.g., customer:123) or use aggregated data." }) := by
  refine ⟨fun hk => ?_, fun k txt hk ho => ?_, fun k exc hk ho => ?_⟩ <;>
    (unfold gemini_policy_decision; rw [h, hk]) <;> [skip; rw [ho]; rw [ho]] <;>
    exact fallback_of_none p r d s _ _ h

/-- Witness for C6: `data_types="internal"`, `scope=""` makes the Rule
Evaluator abstain; with no credential the pipeline yields the risk-60
fallback. -/
theorem C6_fallback_witness :
    gemini_policy_decision ⟨none, none⟩ (.unparsed "garbage") "quarterly report"
      "reports_table" "internal" "" =
      { engine := "fallback", model := "", decision := .NEEDS_APPROVAL,
        risk_score := 60,
        reason := "GEMINI_API_KEY missing; routed to manager approval.",
        constraints := ["Manager approval required"],
        safe_alternative := "Narrow the scope (e.g., customer:123) or use aggregated data." } :=
  (C6_fallback "quarterly report" "reports_table" "internal" "" ⟨none, none⟩
    (.unparsed "garbage") rfl).1 rfl

/-- C7: whenever the Deterministic Rule Evaluator produces a verdict, the
full pipeline returns exactly that verdict (engine `hard_rules`) and the
advisory service is never consulted — the result does not depend on the
oracle for the external call. -/
theorem C7_hard_rules_first (p r d s : String) (env : GeminiEnv)
    (outcome : GeminiOutcome) (v : PolicyResult)
    (h : hard_policy_decision p r d s = some v) :
    gemini_policy_decision env outcome p r d s = v ∧
    v.engine = "hard_rules" ∧
    (∀ env' outcome', gemini_policy_decision env' outcome' p r d s =
      gemini_policy_decision env outcome p r d s) := by
  have hv : gemini_policy_decision env outcome p r d s = v := by
    unfold gemini_policy_decision
    rw [h]
  refine ⟨hv, hard_engine p r d s v h, fun env' outcome' => ?_⟩
  rw [hv]
  unfold gemini_policy_decision
  rw [h]

/-- Witness for C7: `data_types="financial"`, `scope="account:9"` fires the
sensitive-not-narrow rule, and the pipeline answers NEEDS_APPROVAL even when
the advisory oracle would have answered ALLOW with risk 20. -/
theorem C7_hard_rules_first_witness :
    (gemini_policy_decision ⟨some "key", none⟩
        (.parsed ⟨some .ALLOW, some 20, some "fine", some [], some ""⟩)
        "audit trail" "ledger" "financial" "account:9").decision = .NEEDS_APPROVAL := by
  have h := C7_hard_rules_first "audit trail" "ledger" "financial" "account:9"
    ⟨some "key", none⟩ (.parsed ⟨some .ALLOW, some 20, some "fine", some [], some ""⟩)
    { engine := "hard_rules", model := "", decision := .NEEDS_APPROVAL, risk_score := 75,
      reason := "Hard rule: sensitive data requires manager approval unless scope is clearly narrow.",
      constraints := ["Scope must be narrowed to one identifier",
                      "Sensitive access must be audited"],
      safe_alternative :=
        "Use non-sensitive/aggregated data or narrow scope (e.g., customer:123)." }
    rfl
  rw [h.1]

/-- C9: `issue_grant_if_approved` fails with the not-approved rejection for
every request whose decision is not ALLOW, and for an ALLOW request returns
a grant carrying the request's resource and scope; in both cases the store
is returned unchanged (no persisted mutation). -/
theorem C9_issue_grant (db : Store) (ar : AccessRequest) :
    (ar.decision ≠ .ALLOW →
      issue_grant_if_approved db ar =
        (.error ⟨403, "Not approved yet. Approve in Manager Console first."⟩, db)) ∧
    (ar.decision = .ALLOW →
      issue_grant_if_approved db ar =
        (.ok { tool := ar.requested_resource, scope := ar.scope,
               result_preview := "✅ Tool executed successfully for scope=" ++
                 ar.scope ++ ". (demo output)" }, db)) := by
  constructor
  · intro h
    unfold issue_grant_if_approved
    rw [if_pos (by simpa using h)]
  · intro h
    unfold issue_grant_if_approved
    rw [if_neg (by simp [h])]

/-- Witness for C9: a NEEDS_APPROVAL request is rejected with the 403, and
an ALLOW request yields the grant, store untouched both times. -/
theorem C9_issue_grant_witness :
    issue_grant_if_approved ⟨[], []⟩
      ⟨"r1", "o1", some "a1", "support", "orders_table", "public", "ticket:1",
       10, .NEEDS_APPROVAL, none, none, none, 0, none⟩ =
      (.error ⟨403, "Not approved yet. Approve in Manager Console first."⟩, ⟨[], []⟩) ∧
    issue_grant_if_approved ⟨[], []⟩
      ⟨"r2", "o1", some "a1", "support", "orders_table", "public", "ticket:2",
       10, .ALLOW, none, none, none, 0, some 3⟩ =
      (.ok ⟨"orders_table", "ticket:2",
            "✅ Tool executed successfully for scope=ticket:2. (demo output)"⟩, ⟨[], []⟩) := by
  constructor
  · exact (C9_issue_grant ⟨[], []⟩
      ⟨"r1", "o1", some "a1", "support", "orders_table", "public", "ticket:1",
       10, .NEEDS_APPROVAL, none, none, none, 0, none⟩).1 (by decide)
  · have h := (C9_issue_grant ⟨[], []⟩
      ⟨"r2", "o1", some "a1", "support", "orders_table", "public", "ticket:2",
       10, .ALLOW, none, none, none, 0, some 3⟩).2 rfl
    rw [h]
    rfl

/-- C10: bulk classification is by substring containment — every scope
whose normalized text contains one of the marker words (`all`, `everyone`,
`entire`, `export`, `dump`, `bulk`, `full`) anywhere, including inside a
longer word such as `wallet:7`, is classified bulk, and the Rule Evaluator
then returns DENY for it regardless of the other attributes. -/
theorem C10_bulk_substring (p r d scope : String)
    (h : ∃ w ∈ bulk_words, containsSub (_norm scope) w = true) :
    _scope_is_bulk scope = true ∧
    ∃ v, hard_policy_decision p r d scope = some v ∧ v.decision = .DENY := by
  rcases h with ⟨w, hw, hc⟩
  have hb : _scope_is_bulk scope = true := by
    unfold _scope_is_bulk
    have : bulk_words.any (fun w => containsSub (_norm scope) w) = true :=
      List.any_eq_true.mpr ⟨w, hw, hc⟩
    simp [this]
  have hbn : _scope_is_bulk (_norm scope) = true := by
    rw [scope_is_bulk_norm]; exact hb
  refine ⟨hb, ?_⟩
  by_cases hs : is_sensitive d = true <;> simp [hard_policy_decision, hbn, hs]

/-- Witness for C10: `wallet:7` contains the marker `all` inside `wallet`,
so even this single-identifier scope is DENIED by the Rule Evaluator. -/
theorem C10_bulk_substring_witness :
    _scope_is_bulk "wallet:7" = true ∧
    ∃ v, hard_policy_decision "refund check" "payments_table" "public" "wallet:7" =
      some v ∧ v.decision = .DENY :=
  C10_bulk_substring "refund check" "payments_table" "public" "wallet:7"
    ⟨"all", by decide, rfl⟩

/-- C1 fails on the code: the demo-agent prompt gateway
(`gateway_decide_from_prompt`) creates its row without ever setting
`decided_at`, so a request born with decision ALLOW there has a null
`decided_at`, violating the claimed invariant at this concrete input. -/
theorem C1_counterexample :
    (gateway_decide_from_prompt ⟨none, none⟩ (.failed "") ⟨[], []⟩ "org-1"
        "check order status for ticket 991" "req-1" 7).1.decision = Decision.ALLOW ∧
    (gateway_decide_from_prompt ⟨none, none⟩ (.failed "") ⟨[], []⟩ "org-1"
        "check order status for ticket 991" "req-1" 7).1.decided_at = none :=
  ⟨rfl, rfl⟩

/-- C1 (amended): `decided_at` is non-null iff decision ∈ {ALLOW, DENY}
for rows created by the access route and for rows updated by decide();
rows created by the demo-agent prompt gateway instead always carry a null
`decided_at`, whatever their decision (so an ALLOW created there violates
the original invariant). -/
theorem C1_decided_at_invariant :
    (∀ env outcome orgs aoid aid payload db nid now ar st,
      create_access_request env outcome orgs aoid aid payload db nid now = (.ok ar, st) →
      (ar.decided_at ≠ none ↔ (ar.decision = .ALLOW ∨ ar.decision = .DENY))) ∧
    (∀ db rid rd rr now ar st,
      decide_access_request db rid rd rr now = (.ok ar, st) →
      ar.decided_at = some now ∧ (ar.decision = .ALLOW ∨ ar.decision = .DENY)) ∧
    (∀ env assist db oid prompt nid now,
      (gateway_decide_from_prompt env assist db oid prompt nid now).1.decided_at = none) := by
  refine ⟨?_, ?_, ?_⟩
  · intro env outcome orgs aoid aid payload db nid now ar st h
    unfold create_access_request at h
    by_cases horg : aoid ∈ orgs
    · have hc : orgs.contains aoid = true := by simpa using horg
      simp only [hc, Bool.not_true, Bool.false_eq_true, if_false, reduceIte,
        Prod.mk.injEq, Except.ok.injEq] at h
      obtain ⟨h1, -⟩ := h
      subst h1
      cases hpd : (gemini_policy_decision env outcome payload.purpose
          payload.requested_resource payload.data_types payload.scope).decision <;>
        simp [hpd]
    · simp [horg] at h
  · intro db rid rd rr now ar st h
    unfold decide_access_request at h
    rcases hp : parseDecisionCreate rd rr with _ | pd
    · rw [hp] at h
      simp at h
    · rw [hp] at h
      rcases hf : findReq db.requests rid with _ | ar0
      · rw [hf] at h
        simp at h
      · rw [hf] at h
        dsimp only [] at h
        by_cases hdec : ar0.decision ≠ Decision.NEEDS_APPROVAL
        · rw [if_pos hdec] at h
          simp at h
        · rw [if_neg hdec] at h
          by_cases hval : (!(decide (strUpper (pyStrip pd.decision) = "ALLOW") ||
              decide (strUpper (pyStrip pd.decision) = "DENY"))) = true
          · rw [if_pos hval] at h
            simp at h
          · rw [if_neg hval] at h
            simp only [Prod.mk.injEq, Except.ok.injEq] at h
            obtain ⟨h1, -⟩ := h
            subst h1
            refine ⟨rfl, ?_⟩
            by_cases hA : strUpper (pyStrip pd.decision) = "ALLOW" <;> simp [hA]
  · intro env assist db oid prompt nid now
    rcases env with ⟨key, gm⟩
    rcases key with - | k <;>
    rcases assist with n | e <;>
    by_cases h1 : (_simple_intent_parse prompt).data_types = "pii" <;>
    by_cases h2 : (_simple_intent_parse prompt).suspicious = true <;>
    simp [gateway_decide_from_prompt, h1, h2]

/-- Witness for C1 (amended): a concrete decide() on a pending request; the
resulting row has `decided_at = some 5` and decision ALLOW. -/
theorem C1_decided_at_invariant_witness :
    ({ id := "r1", org_id := "o1", agent_id := some "a1", purpose := "support",
       requested_resource := "orders_table", data_types := "public",
       scope := "ticket:1", ttl_minutes := 10, decision := .ALLOW,
       decision_reason := some "Approved", risk_score := none, policy_json := none,
       created_at := 0, decided_at := some 5 } : AccessRequest).decided_at = some 5 ∧
    (({ id := "r1", org_id := "o1", agent_id := some "a1", purpose := "support",
        requested_resource := "orders_table", data_types := "public",
        scope := "ticket:1", ttl_minutes := 10, decision := .ALLOW,
        decision_reason := some "Approved", risk_score := none, policy_json := none,
        created_at := 0, decided_at := some 5 } : AccessRequest).decision = .ALLOW ∨
     ({ id := "r1", org_id := "o1", agent_id := some "a1", purpose := "support",
        requested_resource := "orders_table", data_types := "public",
        scope := "ticket:1", ttl_minutes := 10, decision := .ALLOW,
        decision_reason := some "Approved", risk_score := none, policy_json := none,
        created_at := 0, decided_at := some 5 } : AccessRequest).decision = .DENY) :=
  C1_decided_at_invariant.2.1
    ⟨[{ id := "r1", org_id := "o1", agent_id := some "a1", purpose := "support",
        requested_resource := "orders_table", data_types := "public",
        scope := "ticket:1", ttl_minutes := 10, decision := .NEEDS_APPROVAL,
        decision_reason := none, risk_score := none, policy_json := none,
        created_at := 0, decided_at := none }], []⟩
    "r1" "ALLOW" none 5 _ _ rfl

/-- C8: on both decide endpoints, an out-of-vocabulary humanDecision is
rejected as a validation error with no state change (the access route via
the pydantic boundary, the manager route via its explicit check, both
before the conflict check); a valid decision against a non-pending request
fails with a conflict naming the recorded decision, store untouched; a
valid decision against a NEEDS_APPROVAL request sets decision /
decision_reason (defaulting "Approved"/"Denied" when blank) / decided_at
and appends exactly one audit entry. -/
theorem C8_decide_semantics :
    (∀ db rid rd rr now, parseDecisionCreate rd rr = none →
      decide_access_request db rid rd rr now =
        (.error ⟨422, "Input should be 'ALLOW' or 'DENY'"⟩, db)) ∧
    (∀ db rid rd rr now pd ar, parseDecisionCreate rd rr = some pd →
      findReq db.requests rid = some ar → ar.decision ≠ .NEEDS_APPROVAL →
      decide_access_request db rid rd rr now =
        (.error ⟨409, "Request already decided as " ++ ar.decision.str⟩, db)) ∧
    (∀ db rid rd rr now pd ar, parseDecisionCreate rd rr = some pd →
      findReq db.requests rid = some ar → ar.decision = .NEEDS_APPROVAL →
      decide_access_request db rid rd rr now =
        (.ok { ar with
                decision := if pd.decision = "ALLOW" then .ALLOW else .DENY,
                decision_reason := some (decisionReasonOf pd),
                decided_at := some now },
         { requests := updateReq db.requests
             { ar with
                decision := if pd.decision = "ALLOW" then .ALLOW else .DENY,
                decision_reason := some (decisionReasonOf pd),
                decided_at := some now },
           audit_logs := db.audit_logs ++
             [⟨ar.org_id, "DECISION_MADE",
               "Manager decision=" ++ pd.decision ++ " request=" ++ rid ++
                 " reason=" ++ decisionReasonOf pd⟩] })) ∧
    (∀ orgs db oid rid rd rr now, oid ∈ orgs →
      ¬(strUpper (pyStrip rd) = "ALLOW" ∨ strUpper (pyStrip rd) = "DENY") →
      manager_decide orgs db oid rid rd rr now =
        (.error ⟨400, "decision must be ALLOW or DENY"⟩, db)) ∧
    (∀ orgs db oid rid rd rr now ar, oid ∈ orgs →
      (strUpper (pyStrip rd) = "ALLOW" ∨ strUpper (pyStrip rd) = "DENY") →
      findReq db.requests rid = some ar → ar.org_id = oid →
      ar.decision ≠ .NEEDS_APPROVAL →
      manager_decide orgs db oid rid rd rr now =
        (.error ⟨409, "Already decided: " ++ ar.decision.str⟩, db)) ∧
    (∀ orgs db oid rid rd rr now ar, oid ∈ orgs →
      (strUpper (pyStrip rd) = "ALLOW" ∨ strUpper (pyStrip rd) = "DENY") →
      findReq db.requests rid = some ar → ar.org_id = oid →
      ar.decision = .NEEDS_APPROVAL →
      manager_decide orgs db oid rid rd rr now =
        (.ok { ar with
                decision := if strUpper (pyStrip rd) = "ALLOW" then .ALLOW else .DENY,
                decision_reason := some (if pyStrip rr = "" then
                    (if strUpper (pyStrip rd) = "ALLOW" then "Approved" else "Denied")
                  else pyStrip rr),
                decided_at := some now },
         { requests := updateReq db.requests
             { ar with
                decision := if strUpper (pyStrip rd) = "ALLOW" then .ALLOW else .DENY,
                decision_reason := some (if pyStrip rr = "" then
                    (if strUpper (pyStrip rd) = "ALLOW" then "Approved" else "Denied")
                  else pyStrip rr),
                decided_at := some now },
           audit_logs := db.audit_logs ++
             [⟨oid, "DECISION_MADE",
               "Manager decision=" ++ strUpper (pyStrip rd) ++ " request=" ++ rid ++
                 " reason=" ++ (if pyStrip rr = "" then
                    (if strUpper (pyStrip rd) = "ALLOW" then "Approved" else "Denied")
                  else pyStrip rr)⟩] })) := by
  refine ⟨?_, ?_, ?_, ?_, ?_, ?_⟩
  · intro db rid rd rr now hp
    unfold decide_access_request
    rw [hp]
  · intro db rid rd rr now pd ar hp hf hdec
    unfold decide_access_request
    rw [hp, hf]
    dsimp only []
    rw [if_pos hdec]
  · intro db rid rd rr now pd ar hp hf hdec
    obtain ⟨-, hd2, hreas⟩ := parseDecisionCreate_inv rd rr pd hp
    have hup : strUpper (pyStrip pd.decision) = pd.decision := by
      rcases hd2 with h | h <;> rw [h] <;> rfl
    unfold decide_access_request
    rw [hp, hf]
    dsimp only []
    rw [if_neg (by simp [hdec])]
    rw [hup]
    rw [if_neg (by rcases hd2 with h | h <;> simp [h])]
    rcases hpd : pd.reason with - | t
    · simp [hpd, decisionReasonOf]
    · obtain ⟨hst, hne⟩ := hreas t hpd
      simp [hpd, hst, decisionReasonOf, if_neg hne]
  · intro orgs db oid rid rd rr now horg hval
    unfold manager_decide
    rw [if_neg (by simpa using horg)]
    rw [if_pos (by simpa using hval)]
  · intro orgs db oid rid rd rr now ar horg hval hf hoid hdec
    unfold manager_decide
    rw [if_neg (by simpa using horg)]
    rw [if_neg (by simpa using or_iff_not_imp_left.mp hval)]
    rw [hf]
    dsimp only []
    rw [if_neg (by simp [hoid]), if_pos hdec]
  · intro orgs db oid rid rd rr now ar horg hval hf hoid hdec
    unfold manager_decide
    rw [if_neg (by simpa using horg)]
    rw [if_neg (by simpa using or_iff_not_imp_left.mp hval)]
    rw [hf]
    dsimp only []
    rw [if_neg (by simp [hoid]), if_neg (by simp [hdec]), hoid]

/-- Witness for C8: deciding an already-DENY request with a valid ALLOW
body yields the 409 conflict naming DENY and leaves the store unchanged. -/
theorem C8_decide_semantics_witness :
    decide_access_request
      ⟨[{ id := "r1", org_id := "o1", agent_id := some "a1", purpose := "export",
          requested_resource := "customers_table", data_types := "pii",
          scope := "all", ttl_minutes := 10, decision := .DENY,
          decision_reason := some "bulk", risk_score := some 95, policy_json := none,
          created_at := 0, decided_at := some 1 }], []⟩
      "r1" "ALLOW" none 9 =
      (.error ⟨409, "Request already decided as DENY"⟩,
       ⟨[{ id := "r1", org_id := "o1", agent_id := some "a1", purpose := "export",
           requested_resource := "customers_table", data_types := "pii",
           scope := "all", ttl_minutes := 10, decision := .DENY,
           decision_reason := some "bulk", risk_score := some 95, policy_json := none,
           created_at := 0, decided_at := some 1 }], []⟩) := by
  have h := C8_decide_semantics.2.1
    ⟨[{ id := "r1", org_id := "o1", agent_id := some "a1", purpose := "export",
        requested_resource := "customers_table", data_types := "pii",
        scope := "all", ttl_minutes := 10, decision := .DENY,
        decision_reason := some "bulk", risk_score := some 95, policy_json := none,
        created_at := 0, decided_at := some 1 }], []⟩
    "r1" "ALLOW" none 9 ⟨"ALLOW", none⟩
    { id := "r1", org_id := "o1", agent_id := some "a1", purpose := "export",
      requested_resource := "customers_table", data_types := "pii",
      scope := "all", ttl_minutes := 10, decision := .DENY,
      decision_reason := some "bulk", risk_score := some 95, policy_json := none,
      created_at := 0, decided_at := some 1 }
    rfl rfl (by decide)
  exact h

end AgentProtector
